import Mathlib

/-!
Verification development for the nix-remote-build-controller repository.

The repository contains a Kubernetes-style controller (`NixBuildRequestReconciler`)
in two source variants inside `part_006` (called variant A, lines 1-311, and
variant B, lines 312-699, below) plus an SSH ingress proxy (`pkg/proxy/server.go`).
We give a shallow embedding of the reconciler's single-record step function,
of the proxy's `waitForBuilderPod` polling loop, of `forwardRequests`, and of
`GracefulShutdown`, and prove the specification claims about them.

Modelling conventions:
- Kubernetes phases are the literal strings used by the Go code
  ("Pending", "Creating", "Running", "Completed", "Failed", and the pod
  phases "Pending"/"Running"/"Succeeded"/"Failed").
- Wall-clock time is a natural number of seconds (`now`); `time.Now()`
  becomes the `now` parameter, `time.Since(t) > 5*time.Minute` becomes
  `300 < now - t`.
- `metav1.Time` pointers become `Option Nat`; the Go nil-pointer dereference
  in `handleCompletedBuild` is modelled by the reconciler returning `none`.
- The pod world is a list of pods; `r.Get` of a pod is lookup by
  namespace and name, `r.Create` appends, `r.Delete` filters out.
- Status updates and record updates are modelled as always succeeding
  (their failure paths only log or surface a transient error to the
  controller framework); `GracefulShutdown` models per-record status-update
  failure explicitly because the claim is about it.
- Go's `len` on a sessionID counts bytes while `String.length` counts
  characters; they agree on every string the RFC-1123 regex can accept,
  and any string where they disagree is rejected by both the Go code and
  this embedding (only the text of the error message could differ).
-/

/-- A builder pod, reduced to the fields the controller reads:
name, namespace, `status.phase`, `status.podIP`, `status.message`. -/
structure Pod where
  name : String
  ns : String
  phase : String
  podIP : String
  message : String
deriving DecidableEq

/-- `NixBuildRequestSpec` (part_000/part_001): the fields the reconciler
branches on. `resources`, `timeoutSeconds` and `nodeSelector` are copied
verbatim into the created pod and never read back, so they are omitted. -/
structure BuildSpec where
  sessionID : String
  image : String
deriving DecidableEq

/-- `NixBuildRequestStatus` (part_000/part_001), with `conditions` omitted
(no source variant ever writes or reads them). -/
structure BuildStatus where
  phase : String
  podName : String
  podIP : String
  startTime : Option Nat
  completionTime : Option Nat
  message : String
deriving DecidableEq

/-- A `NixBuildRequest` record together with the object metadata the
reconciler uses: finalizers and the deletion timestamp. -/
structure BuildRequest where
  name : String
  ns : String
  spec : BuildSpec
  status : BuildStatus
  finalizers : List String
  deletionTimestamp : Option Nat
deriving DecidableEq

/-- `ctrl.Result`: whether a requeue was requested, and the
`RequeueAfter` delay in seconds (0 = none). -/
structure ReconcileResult where
  requeue : Bool
  requeueAfter : Nat
deriving DecidableEq

/-- The observable outcome of one reconcile invocation: the record as the
reconciler wrote it back (status, finalizers), the pod world after the
reconciler's create/delete calls, the returned `ctrl.Result`, and whether
an error was returned to the controller framework. -/
structure ReconcileOutcome where
  record : BuildRequest
  pods : List Pod
  result : ReconcileResult
  isErr : Bool
deriving DecidableEq

/-- Pod lookup by namespace and name (`r.Get` on a `corev1.Pod`;
`none` models the not-found error). -/
def findPod (pods : List Pod) (ns name : String) : Option Pod :=
  pods.find? (fun p => p.ns == ns && p.name == name)

/-- Pod deletion by namespace and name (`r.Delete`). -/
def deletePod (pods : List Pod) (ns name : String) : List Pod :=
  pods.filter (fun p => !(p.ns == ns && p.name == name))

/-- The finalizer string `"nix.io/cleanup"`. -/
def cleanupFinalizer : String := "nix.io/cleanup"

/-- `fmt.Sprintf("nix-builder-%s", sessionID)`: the deterministic
builder-pod name. -/
def builderPodName (sessionID : String) : String := "nix-builder-" ++ sessionID

/-- One character of the RFC-1123 character class `[a-z0-9]`. -/
def isLabelChar (c : Char) : Bool :=
  (Char.ofNat 97 ≤ c && c ≤ Char.ofNat 122) || (Char.ofNat 48 ≤ c && c ≤ Char.ofNat 57)

/-- One character of the character class `[a-z0-9-]`. -/
def isLabelCharOrDash (c : Char) : Bool :=
  isLabelChar c || c == Char.ofNat 45

/-- The compiled regex `^[a-z0-9]([a-z0-9\-]{0,61}[a-z0-9])?$`
(`sessionIDRegex` in variant B): a single `[a-z0-9]` character, or a
string of 2 to 63 characters whose first and last characters are
`[a-z0-9]` and whose middle characters are `[a-z0-9-]`. -/
def sessionIDRegexMatches (s : String) : Bool :=
  match s.data with
  | [] => false
  | c :: rest =>
    isLabelChar c &&
    (match rest.reverse with
     | [] => true
     | d :: mid => isLabelChar d && decide (mid.length ≤ 61) && mid.all isLabelCharOrDash)

/-- `validateSessionID` (part_006 variant B, lines 346-357): returns the
error message on failure, `none` on success. -/
def validateSessionID (sessionID : String) : Option String :=
  if sessionID = "" then
    some "sessionID cannot be empty"
  else if 240 < sessionID.length then
    some ("sessionID too long: " ++ toString sessionID.length ++
      " characters (max 240 to accommodate pod name prefix)")
  else if !sessionIDRegexMatches sessionID then
    some ("sessionID \"" ++ sessionID ++ "\" is invalid: must be a lowercase RFC 1123 DNS label (lowercase alphanumeric characters or '-', must start and end with alphanumeric)")
  else
    none

/-- Set an optional timestamp only when it is not already set
(the `if x == nil { x = &metav1.Time{...} }` idiom). -/
def setIfUnset (t : Option Nat) (now : Nat) : Option Nat :=
  match t with
  | none => some now
  | some v => some v

/-- An outcome with no pod change, no requeue and no error. -/
def plainOutcome (req : BuildRequest) (pods : List Pod) : ReconcileOutcome :=
  { record := req, pods := pods, result := { requeue := false, requeueAfter := 0 }, isErr := false }

/-- `handlePendingBuild` (variant B, lines 423-466): adopt an existing
builder pod, or create one; either way move to Creating, record the pod
name, and set `startTime` only if unset. -/
def handlePendingBuildB (now : Nat) (req : BuildRequest) (pods : List Pod) : ReconcileOutcome :=
  match findPod pods req.ns (builderPodName req.spec.sessionID) with
  | some _ =>
    plainOutcome { req with status := { req.status with
      phase := "Creating", podName := builderPodName req.spec.sessionID,
      startTime := setIfUnset req.status.startTime now,
      message := "Builder pod exists" } } pods
  | none =>
    { record := { req with status := { req.status with
        phase := "Creating", podName := builderPodName req.spec.sessionID,
        startTime := setIfUnset req.status.startTime now,
        message := "Builder pod created" } },
      pods := pods ++ [{ name := builderPodName req.spec.sessionID, ns := req.ns,
                         phase := "Pending", podIP := "", message := "" }],
      result := { requeue := false, requeueAfter := 5 }, isErr := false }

/-- `handleCreatingBuild` (variant B, lines 468-509): roll back to Pending
when the pod vanished; go Running when the pod is Running with an IP; go
Failed when the pod Failed (overwriting `completionTime` unconditionally);
otherwise poll again in 2 s. -/
def handleCreatingBuildB (now : Nat) (req : BuildRequest) (pods : List Pod) : ReconcileOutcome :=
  match findPod pods req.ns req.status.podName with
  | none =>
    plainOutcome { req with status := { req.status with
      phase := "Pending", podName := "", podIP := "",
      message := "Builder pod was deleted, recreating" } } pods
  | some pod =>
    if pod.phase = "Running" ∧ pod.podIP ≠ "" then
      plainOutcome { req with status := { req.status with
        phase := "Running", podIP := pod.podIP,
        message := "Builder pod ready for connections" } } pods
    else if pod.phase = "Failed" then
      plainOutcome { req with status := { req.status with
        phase := "Failed", completionTime := some now,
        message := "Builder pod failed: " ++ pod.message } } pods
    else
      { record := req, pods := pods, result := { requeue := false, requeueAfter := 2 }, isErr := false }

/-- `handleRunningBuild` (variant B, lines 511-547): pod missing means
Failed with message "Build failed - pod was deleted" (note: `podIP` is not
cleared and `completionTime` is overwritten unconditionally); pod Succeeded
means Completed; pod Failed means Failed; otherwise poll again in 10 s. -/
def handleRunningBuildB (now : Nat) (req : BuildRequest) (pods : List Pod) : ReconcileOutcome :=
  match findPod pods req.ns req.status.podName with
  | none =>
    plainOutcome { req with status := { req.status with
      phase := "Failed", completionTime := some now,
      message := "Build failed - pod was deleted" } } pods
  | some pod =>
    if pod.phase = "Succeeded" then
      plainOutcome { req with status := { req.status with
        phase := "Completed", completionTime := setIfUnset req.status.completionTime now,
        message := "Build completed successfully" } } pods
    else if pod.phase = "Failed" then
      plainOutcome { req with status := { req.status with
        phase := "Failed", completionTime := setIfUnset req.status.completionTime now,
        message := "Build failed: " ++ pod.message } } pods
    else
      { record := req, pods := pods, result := { requeue := false, requeueAfter := 10 }, isErr := false }

/-- `handleCompletedBuild` (variant B, lines 549-565): dereferences
`status.completionTime` with no nil guard (modelled by returning `none`
when it is unset); when the completion is more than 5 minutes old it
deletes the builder pod if still present; the status is never touched and
no requeue is requested. -/
def handleCompletedBuildB (now : Nat) (req : BuildRequest) (pods : List Pod) : Option ReconcileOutcome :=
  match req.status.completionTime with
  | none => none
  | some ct =>
    some (plainOutcome req
      (if 300 < now - ct then
        match findPod pods req.ns req.status.podName with
        | some _ => deletePod pods req.ns req.status.podName
        | none => pods
      else pods))

/-- `cleanup` (variant B, lines 641-660): delete the pod named by
`status.podName` if it exists. -/
def cleanupPods (req : BuildRequest) (pods : List Pod) : List Pod :=
  if req.status.podName ≠ "" then
    match findPod pods req.ns req.status.podName with
    | some _ => deletePod pods req.ns req.status.podName
    | none => pods
  else pods

/-- `Reconcile` (part_006 variant B, lines 360-421): validate the
sessionID first (driving the record to Failed with no requeue on
failure), then add the `nix.io/cleanup` finalizer on first sight, then
handle deletion (pod cleanup followed by finalizer removal), then
dispatch on `status.phase`. `none` models the nil-pointer panic inside
`handleCompletedBuild`. -/
def reconcileB (now : Nat) (req : BuildRequest) (pods : List Pod) : Option ReconcileOutcome :=
  match validateSessionID req.spec.sessionID with
  | some errMsg =>
    some (plainOutcome { req with status := { req.status with
      phase := "Failed",
      message := "Invalid sessionID: " ++ errMsg,
      completionTime := setIfUnset req.status.completionTime now } } pods)
  | none =>
    if req.deletionTimestamp = none ∧ cleanupFinalizer ∉ req.finalizers then
      some { record := { req with finalizers := req.finalizers ++ [cleanupFinalizer] },
             pods := pods, result := { requeue := true, requeueAfter := 0 }, isErr := false }
    else if req.deletionTimestamp ≠ none then
      some { record := { req with finalizers := req.finalizers.filter (fun f => f != cleanupFinalizer) },
             pods := cleanupPods req pods,
             result := { requeue := false, requeueAfter := 0 }, isErr := false }
    else if req.status.phase = "" ∨ req.status.phase = "Pending" then
      some (handlePendingBuildB now req pods)
    else if req.status.phase = "Creating" then
      some (handleCreatingBuildB now req pods)
    else if req.status.phase = "Running" then
      some (handleRunningBuildB now req pods)
    else if req.status.phase = "Completed" ∨ req.status.phase = "Failed" then
      handleCompletedBuildB now req pods
    else
      some (plainOutcome req pods)

/-- `handlePendingBuild` (part_006 variant A, lines 80-100): no existence
check; `r.Create` fails with AlreadyExists when the pod is already there
(an error return with no status change); on success the status moves to
Creating with `startTime` overwritten unconditionally. -/
def handlePendingBuildA (now : Nat) (req : BuildRequest) (pods : List Pod) : ReconcileOutcome :=
  match findPod pods req.ns (builderPodName req.spec.sessionID) with
  | some _ =>
    { record := req, pods := pods, result := { requeue := false, requeueAfter := 0 }, isErr := true }
  | none =>
    { record := { req with status := { req.status with
        phase := "Creating", podName := builderPodName req.spec.sessionID,
        startTime := some now,
        message := "Builder pod created" } },
      pods := pods ++ [{ name := builderPodName req.spec.sessionID, ns := req.ns,
                         phase := "Pending", podIP := "", message := "" }],
      result := { requeue := false, requeueAfter := 5 }, isErr := false }

/-- `handleCreatingBuild` (variant A, lines 102-127): any `r.Get` error,
including not-found, is returned to the framework (no Pending rollback);
a Running pod with an IP moves the record to Running; otherwise poll in 2 s. -/
def handleCreatingBuildA (req : BuildRequest) (pods : List Pod) : ReconcileOutcome :=
  match findPod pods req.ns req.status.podName with
  | none =>
    { record := req, pods := pods, result := { requeue := false, requeueAfter := 0 }, isErr := true }
  | some pod =>
    if pod.phase = "Running" ∧ pod.podIP ≠ "" then
      plainOutcome { req with status := { req.status with
        phase := "Running", podIP := pod.podIP,
        message := "Builder pod ready for connections" } } pods
    else
      { record := req, pods := pods, result := { requeue := false, requeueAfter := 2 }, isErr := false }

/-- `handleRunningBuild` (variant A, lines 129-154): a missing pod moves
the record to Failed with message "Builder pod was deleted unexpectedly";
a Failed pod moves it to Failed; there is no Succeeded branch; otherwise
poll again in 30 s. -/
def handleRunningBuildA (now : Nat) (req : BuildRequest) (pods : List Pod) : ReconcileOutcome :=
  match findPod pods req.ns req.status.podName with
  | none =>
    plainOutcome { req with status := { req.status with
      phase := "Failed", completionTime := some now,
      message := "Builder pod was deleted unexpectedly" } } pods
  | some pod =>
    if pod.phase = "Failed" then
      plainOutcome { req with status := { req.status with
        phase := "Failed", completionTime := some now,
        message := "Builder pod failed unexpectedly: " ++ pod.message } } pods
    else
      { record := req, pods := pods, result := { requeue := false, requeueAfter := 30 }, isErr := false }

/-- `handleCompletedBuild` (variant A, lines 156-162): logs and returns;
no garbage collection of the builder pod, no status change, no requeue. -/
def handleCompletedBuildA (req : BuildRequest) (pods : List Pod) : ReconcileOutcome :=
  plainOutcome req pods

/-- `Reconcile` (part_006 variant A, lines 30-78): like variant B but with
no sessionID validation and the variant-A handlers. -/
def reconcileA (now : Nat) (req : BuildRequest) (pods : List Pod) : ReconcileOutcome :=
  if req.deletionTimestamp = none ∧ cleanupFinalizer ∉ req.finalizers then
    { record := { req with finalizers := req.finalizers ++ [cleanupFinalizer] },
      pods := pods, result := { requeue := true, requeueAfter := 0 }, isErr := false }
  else if req.deletionTimestamp ≠ none then
    { record := { req with finalizers := req.finalizers.filter (fun f => f != cleanupFinalizer) },
      pods := cleanupPods req pods,
      result := { requeue := false, requeueAfter := 0 }, isErr := false }
  else if req.status.phase = "" ∨ req.status.phase = "Pending" then
    handlePendingBuildA now req pods
  else if req.status.phase = "Creating" then
    handleCreatingBuildA req pods
  else if req.status.phase = "Running" then
    handleRunningBuildA now req pods
  else if req.status.phase = "Completed" ∨ req.status.phase = "Failed" then
    handleCompletedBuildA req pods
  else
    plainOutcome req pods

/-! ## Proxy: waitForBuilderPod (pkg/proxy/server.go, lines 373-401) -/

/-- What one 1-second tick of the polling loop observes: `missing` covers
both a not-found record and any other `Get` error (the Go code `continue`s
on every error), `found` carries the record's `status.phase` and
`status.podIP`. -/
inductive PollObs where
  | missing : PollObs
  | found : String → String → PollObs
deriving DecidableEq

/-- Result of `waitForBuilderPod`: the pod IP, the
"timeout waiting for builder pod" error, or `ctx.Err()`. -/
inductive WaitResult where
  | success : String → WaitResult
  | timeoutErr : WaitResult
  | cancelled : WaitResult
deriving DecidableEq

/-- Whether an observation satisfies the loop's exit condition
`Status.Phase == BuildPhaseRunning && Status.PodIP != ""`. -/
def readyObs : PollObs → Bool
  | PollObs.missing => false
  | PollObs.found ph ip => ph == "Running" && ip != ""

/-- The IP carried by an observation. -/
def obsIP : PollObs → String
  | PollObs.missing => ""
  | PollObs.found _ ip => ip

/-- The polling loop body: at each tick, first the cancellation signal is
checked, then the record is read; a ready observation returns its IP;
exhausting the fuel models the `time.After` ceiling firing. `get t` is the
observation at tick `t` and `cancel t` says whether the ambient context is
cancelled by tick `t`. -/
def waitSteps (get : Nat → PollObs) (cancel : Nat → Bool) : Nat → Nat → WaitResult
  | _, 0 => WaitResult.timeoutErr
  | tick, fuel + 1 =>
    if cancel tick then WaitResult.cancelled
    else if readyObs (get tick) then WaitResult.success (obsIP (get tick))
    else waitSteps get cancel (tick + 1) fuel

/-- `waitForBuilderPod`: a 1 Hz ticker (ticks 1, 2, ...) bounded by the
2-minute ceiling, i.e. 120 ticks. -/
def waitForBuilderPod (get : Nat → PollObs) (cancel : Nat → Bool) : WaitResult :=
  waitSteps get cancel 1 120

/-! ## Proxy: forwardRequests (pkg/proxy/server.go, lines 468-497) -/

/-- An SSH out-of-band request as the proxy sees it: type, wantReply flag
and payload bytes. -/
structure SSHRequest where
  reqType : String
  wantReply : Bool
  payload : List Nat
deriving DecidableEq

/-- One event on the source request channel: context cancellation, channel
close, or an arriving request. -/
inductive ReqEvent where
  | cancelled : ReqEvent
  | closed : ReqEvent
  | item : SSHRequest → ReqEvent
deriving DecidableEq

/-- The observable effect of forwarding one request: what was sent
downstream via `dst.SendRequest`, what it answered (`accepted`), whether
the send had an IO error (`sendOk = false`), and the reply delivered to
the originator (`req.Reply(accepted && err == nil, nil)`; the SSH layer
delivers a reply only when `wantReply` was set). -/
structure ForwardedRequest where
  sentType : String
  sentWantReply : Bool
  sentPayload : List Nat
  accepted : Bool
  sendOk : Bool
  reply : Option Bool
deriving DecidableEq

/-- `forwardRequests`: loop over the source channel until cancellation or
close; forward each request downstream verbatim and reply with
`accepted && err == nil`. `downstream r` returns the pair
(accept/reject result, send succeeded). -/
def forwardRequests (downstream : SSHRequest → Bool × Bool) : List ReqEvent → List ForwardedRequest
  | [] => []
  | ReqEvent.cancelled :: _ => []
  | ReqEvent.closed :: _ => []
  | ReqEvent.item r :: rest =>
    { sentType := r.reqType, sentWantReply := r.wantReply, sentPayload := r.payload,
      accepted := (downstream r).1, sendOk := (downstream r).2,
      reply := if r.wantReply then some ((downstream r).1 && (downstream r).2) else none }
      :: forwardRequests downstream rest

/-! ## Controller: GracefulShutdown (part_006 variant B, lines 662-691) -/

/-- The status written to a Pending/Creating record during shutdown. -/
def shutdownStatus (now : Nat) (st : BuildStatus) : BuildStatus :=
  { st with
    phase := "Failed", message := "Controller shutdown during processing",
    completionTime := some now }

/-- One loop iteration of `GracefulShutdown`: records in phase Pending or
Creating get the shutdown status written via `Status().Update`; when that
update fails (`ok = false`) the store keeps the old record and the error
is only logged; every other record is not touched. -/
def shutdownOne (now : Nat) (req : BuildRequest) (ok : Bool) : BuildRequest :=
  if req.status.phase = "Pending" ∨ req.status.phase = "Creating" then
    if ok then { req with status := shutdownStatus now req.status } else req
  else req

/-- The `for _, buildReq := range buildReqs.Items` loop, with `updateOk i`
telling whether the status update for the i-th record succeeds. -/
def shutdownLoop (now : Nat) (updateOk : Nat → Bool) : Nat → List BuildRequest → List BuildRequest
  | _, [] => []
  | i, r :: rs => shutdownOne now r (updateOk i) :: shutdownLoop now updateOk (i + 1) rs

/-- `GracefulShutdown` (variant B, lines 662-691): processes every listed
record and returns nil (`true` = success) regardless of individual
status-update failures. -/
def gracefulShutdown (now : Nat) (items : List BuildRequest) (updateOk : Nat → Bool) :
    List BuildRequest × Bool :=
  (shutdownLoop now updateOk 0 items, true)

/-! ## Reachability of record states

Records are created by the proxy (`createBuildRequest`, server.go lines
312-329) with a populated spec and a zero status, no finalizers and no
deletion timestamp.  Afterwards the status and the finalizer list are
written only by the reconciler; the environment may mark the record for
deletion at any time, and the pod world passed to each reconcile is
arbitrary (pods change under the cluster's control between reconciles). -/

/-- The zero `NixBuildRequestStatus` of a freshly created record. -/
def emptyStatus : BuildStatus :=
  { phase := "", podName := "", podIP := "", startTime := none,
    completionTime := none, message := "" }

/-- The record the proxy creates for a session. -/
def freshRequest (name ns sid image : String) : BuildRequest :=
  { name := name, ns := ns, spec := { sessionID := sid, image := image },
    status := emptyStatus, finalizers := [], deletionTimestamp := none }

/-- Record states reachable from a freshly created record under any
interleaving of variant-B reconciles (with arbitrary pod worlds and
clock readings) and external deletion marking. -/
inductive Reachable : BuildRequest → Prop where
  | init (name ns sid image : String) : Reachable (freshRequest name ns sid image)
  | markDeleted (r : BuildRequest) (t : Nat) :
      Reachable r → Reachable { r with deletionTimestamp := some t }
  | step (r : BuildRequest) (pods : List Pod) (now : Nat) (o : ReconcileOutcome) :
      Reachable r → reconcileB now r pods = some o → Reachable o.record

/-- The claimed podIP/phase relationship, in the form the code actually
maintains: a Running or Completed record has a non-empty podIP, and a
record that has not yet reached Running (empty phase, Pending, Creating)
has an empty podIP.  Failed records are deliberately absent from both
sides: a Running record whose pod vanishes keeps its stale podIP. -/
def PodIPInv (r : BuildRequest) : Prop :=
  ((r.status.phase = "Running" ∨ r.status.phase = "Completed") → r.status.podIP ≠ "") ∧
  ((r.status.phase = "" ∨ r.status.phase = "Pending" ∨ r.status.phase = "Creating") →
    r.status.podIP = "")

/-! ## Concrete fixtures used by counterexamples and witnesses -/

/-- C1 witness fixture: a record whose sessionID is empty. -/
def reqC1 : BuildRequest :=
  { name := "build-x", ns := "default", spec := { sessionID := "", image := "" },
    status := emptyStatus, finalizers := ["nix.io/cleanup"], deletionTimestamp := none }

/-- C2 fixtures: a session record driven `""` → Creating → Running and
then reconciled after its pod vanished. -/
def c2pods : List Pod :=
  [{ name := "nix-builder-abc", ns := "default", phase := "Running",
     podIP := "10.0.0.42", message := "" }]

/-- The fresh record of session `abc`. -/
def c2r0 : BuildRequest := freshRequest "build-abc" "default" "abc" ""

/-- After reconcile 1: the `nix.io/cleanup` finalizer was added. -/
def c2r1 : BuildRequest := { c2r0 with finalizers := ["nix.io/cleanup"] }

/-- After reconcile 2: the existing pod was adopted, phase Creating. -/
def c2r2 : BuildRequest :=
  { c2r1 with status := { emptyStatus with
      phase := "Creating", podName := "nix-builder-abc", startTime := some 2,
      message := "Builder pod exists" } }

/-- After reconcile 3: the pod is Running with an IP, phase Running. -/
def c2r3 : BuildRequest :=
  { c2r1 with status := { emptyStatus with
      phase := "Running", podName := "nix-builder-abc", startTime := some 2,
      podIP := "10.0.0.42",
      message := "Builder pod ready for connections" } }

/-- After reconcile 4 against an empty pod world: Failed, but `podIP`
still holds the stale address. -/
def c2r4 : BuildRequest :=
  { c2r1 with status := { emptyStatus with
      phase := "Failed", podName := "nix-builder-abc", startTime := some 2,
      podIP := "10.0.0.42", completionTime := some 4,
      message := "Build failed - pod was deleted" } }

/-- C3 failing input: a record marked for deletion that still carries the
cleanup finalizer but has an invalid sessionID. -/
def rC3 : BuildRequest :=
  { name := "build-bad", ns := "default", spec := { sessionID := "Bad_ID", image := "" },
    status := { phase := "Running", podName := "nix-builder-bad", podIP := "10.0.0.1",
                startTime := some 0, completionTime := none, message := "" },
    finalizers := ["nix.io/cleanup"], deletionTimestamp := some 50 }

/-- The pod owned by `rC3`. -/
def podC3 : Pod :=
  { name := "nix-builder-bad", ns := "default", phase := "Running",
    podIP := "10.0.0.1", message := "" }

/-- What variant B does with `rC3`: the validation branch fires, leaving
the finalizer in place and the pod untouched. -/
def oC3 : ReconcileOutcome :=
  { record := { rC3 with status := { rC3.status with
        phase := "Failed", completionTime := some 100,
        message := "Invalid sessionID: sessionID \"Bad_ID\" is invalid: must be a lowercase RFC 1123 DNS label (lowercase alphanumeric characters or '-', must start and end with alphanumeric)" } },
    pods := [podC3], result := { requeue := false, requeueAfter := 0 }, isErr := false }

/-- C4 counterexample fixture: a fresh record (finalizer already present)
whose builder pod already exists and is Running. -/
def rC4 : BuildRequest :=
  { name := "build-abc", ns := "default", spec := { sessionID := "abc", image := "" },
    status := emptyStatus, finalizers := ["nix.io/cleanup"], deletionTimestamp := none }

/-- The already-running builder pod for `rC4`. -/
def podsC4 : List Pod :=
  [{ name := "nix-builder-abc", ns := "default", phase := "Running",
     podIP := "10.0.0.7", message := "" }]

/-- First reconcile of `rC4`: adopt the pod, phase Creating. -/
def oC4a : ReconcileOutcome :=
  { record := { rC4 with status := { emptyStatus with
        phase := "Creating", podName := "nix-builder-abc", startTime := some 10,
        message := "Builder pod exists" } },
    pods := podsC4, result := { requeue := false, requeueAfter := 0 }, isErr := false }

/-- Second reconcile, same pod world: phase advances again, to Running. -/
def oC4b : ReconcileOutcome :=
  { record := { rC4 with status := { emptyStatus with
        phase := "Running", podName := "nix-builder-abc", startTime := some 10,
        podIP := "10.0.0.7", message := "Builder pod ready for connections" } },
    pods := podsC4, result := { requeue := false, requeueAfter := 0 }, isErr := false }

/-- C4 witness fixture: a terminal record with both timestamps set. -/
def rC4w : BuildRequest :=
  { name := "build-abc", ns := "default", spec := { sessionID := "abc", image := "" },
    status := { phase := "Failed", podName := "nix-builder-abc", podIP := "10.0.0.7",
                startTime := some 3, completionTime := some 7, message := "Build failed" },
    finalizers := ["nix.io/cleanup"], deletionTimestamp := none }

/-- Reconciling `rC4w` at time 100 (inside the 5-minute window): nothing
changes. -/
def oC4w : ReconcileOutcome := plainOutcome rC4w []

/-- C5 witness fixtures: a store whose record is Running with an IP from
the first poll on; an always-missing store; never/immediate cancellation. -/
def getReadyW : Nat → PollObs := fun _ => PollObs.found "Running" "10.0.0.5"

/-- A store observation that never finds the record. -/
def getMissingW : Nat → PollObs := fun _ => PollObs.missing

/-- A context that is never cancelled. -/
def cancelNeverW : Nat → Bool := fun _ => false

/-- A context that is already cancelled at the first tick. -/
def cancelNowW : Nat → Bool := fun _ => true

/-- C6 counterexample fixture: a Running record whose pod vanished,
handled by variant A. -/
def rC6 : BuildRequest :=
  { name := "build-abc", ns := "default", spec := { sessionID := "abc", image := "" },
    status := { phase := "Running", podName := "nix-builder-abc", podIP := "10.0.0.9",
                startTime := some 1, completionTime := none, message := "" },
    finalizers := ["nix.io/cleanup"], deletionTimestamp := none }

/-- Variant A's outcome on `rC6`: Failed, but with its own message
"Builder pod was deleted unexpectedly". -/
def oC6 : ReconcileOutcome :=
  { record := { rC6 with status := { rC6.status with
        phase := "Failed", completionTime := some 50,
        message := "Builder pod was deleted unexpectedly" } },
    pods := [], result := { requeue := false, requeueAfter := 0 }, isErr := false }

/-- C6 witness fixture: a Running record whose pod vanished, for
variant B. -/
def rC6w : BuildRequest :=
  { name := "build-xyz", ns := "default", spec := { sessionID := "xyz", image := "" },
    status := { phase := "Running", podName := "nix-builder-xyz", podIP := "10.0.0.3",
                startTime := some 2, completionTime := none, message := "" },
    finalizers := ["nix.io/cleanup"], deletionTimestamp := none }

/-- C7 witness fixtures: a downstream that accepts everything without IO
errors, and a request with `wantReply` set. -/
def dsW : SSHRequest → Bool × Bool := fun _ => (true, true)

/-- A concrete out-of-band request. -/
def reqW : SSHRequest := { reqType := "exec", wantReply := true, payload := [1, 2, 3] }

/-- C8 witness fixtures: one Pending, one Running, one Creating record;
the status update for the third fails. -/
def rPendW : BuildRequest :=
  { name := "b1", ns := "default", spec := { sessionID := "s1", image := "" },
    status := { emptyStatus with phase := "Pending" },
    finalizers := ["nix.io/cleanup"], deletionTimestamp := none }

/-- A Running record for the C8 witness. -/
def rRunW : BuildRequest :=
  { name := "b2", ns := "default", spec := { sessionID := "s2", image := "" },
    status := { emptyStatus with
                phase := "Running", podName := "nix-builder-s2",
                podIP := "10.0.0.8", startTime := some 1 },
    finalizers := ["nix.io/cleanup"], deletionTimestamp := none }

/-- A Creating record for the C8 witness (its update will fail). -/
def rCreatW : BuildRequest :=
  { name := "b3", ns := "default", spec := { sessionID := "s3", image := "" },
    status := { emptyStatus with
                phase := "Creating", podName := "nix-builder-s3",
                startTime := some 2 },
    finalizers := ["nix.io/cleanup"], deletionTimestamp := none }

/-- The C8 witness record list. -/
def itemsW : List BuildRequest := [rPendW, rRunW, rCreatW]

/-- Status updates succeed except for index 2. -/
def okW : Nat → Bool := fun i => i != 2

/-- C9 counterexample fixture: a Completed record 1000 s past completion
whose pod is still present, handled by variant A. -/
def rC9 : BuildRequest :=
  { name := "build-abc", ns := "default", spec := { sessionID := "abc", image := "" },
    status := { phase := "Completed", podName := "nix-builder-abc", podIP := "10.0.0.7",
                startTime := some 0, completionTime := some 0, message := "done" },
    finalizers := ["nix.io/cleanup"], deletionTimestamp := none }

/-- The leftover pod of `rC9`. -/
def podC9 : Pod :=
  { name := "nix-builder-abc", ns := "default", phase := "Succeeded",
    podIP := "", message := "" }

/-- C10 witness fixture: a Completed record whose completionTime was never
set. -/
def rC10 : BuildRequest :=
  { name := "build-abc", ns := "default", spec := { sessionID := "abc", image := "" },
    status := { phase := "Completed", podName := "nix-builder-abc", podIP := "10.0.0.7",
                startTime := some 0, completionTime := none, message := "done" },
    finalizers := ["nix.io/cleanup"], deletionTimestamp := none }

/-! ## Helper lemmas -/

/-- `validateSessionID` succeeds exactly on a non-empty sessionID of at
most 240 characters that matches the DNS-label regex. -/
lemma validateSessionID_eq_none_iff (s : String) :
    validateSessionID s = none ↔
      (s ≠ "" ∧ s.length ≤ 240 ∧ sessionIDRegexMatches s = true) := by
  unfold validateSessionID
  by_cases h1 : s = ""
  · simp [h1]
  · rw [if_neg h1]
    by_cases h2 : 240 < s.length
    · simp [h2, h1]
    · rw [if_neg h2]
      by_cases h3 : sessionIDRegexMatches s
      · simp [h3, h1]
        omega
      · simp [h3, h1]

/-- A record with a valid sessionID, the cleanup finalizer, and no
deletion mark dispatches on its phase; in the empty/Pending case the
pending handler runs. -/
lemma reconcileB_dispatch_pending (now : Nat) (req : BuildRequest) (pods : List Pod)
    (hval : validateSessionID req.spec.sessionID = none)
    (hfin : cleanupFinalizer ∈ req.finalizers)
    (hdel : req.deletionTimestamp = none)
    (hph : req.status.phase = "" ∨ req.status.phase = "Pending") :
    reconcileB now req pods = some (handlePendingBuildB now req pods) := by
  unfold reconcileB
  rw [hval]
  rw [if_neg (fun hc => hc.2 hfin)]
  rw [if_neg (fun hc => hc hdel)]
  rw [if_pos hph]

/-- Dispatch in the Creating case. -/
lemma reconcileB_dispatch_creating (now : Nat) (req : BuildRequest) (pods : List Pod)
    (hval : validateSessionID req.spec.sessionID = none)
    (hfin : cleanupFinalizer ∈ req.finalizers)
    (hdel : req.deletionTimestamp = none)
    (hph : req.status.phase = "Creating") :
    reconcileB now req pods = some (handleCreatingBuildB now req pods) := by
  unfold reconcileB
  rw [hval]
  rw [if_neg (fun hc => hc.2 hfin)]
  rw [if_neg (fun hc => hc hdel)]
  rw [if_neg (by rw [hph]; decide)]
  rw [if_pos hph]

/-- Dispatch in the Running case. -/
lemma reconcileB_dispatch_running (now : Nat) (req : BuildRequest) (pods : List Pod)
    (hval : validateSessionID req.spec.sessionID = none)
    (hfin : cleanupFinalizer ∈ req.finalizers)
    (hdel : req.deletionTimestamp = none)
    (hph : req.status.phase = "Running") :
    reconcileB now req pods = some (handleRunningBuildB now req pods) := by
  unfold reconcileB
  rw [hval]
  rw [if_neg (fun hc => hc.2 hfin)]
  rw [if_neg (fun hc => hc hdel)]
  rw [if_neg (by rw [hph]; decide)]
  rw [if_neg (by rw [hph]; decide)]
  rw [if_pos hph]

/-- Dispatch in the terminal (Completed/Failed) case. -/
lemma reconcileB_dispatch_terminal (now : Nat) (req : BuildRequest) (pods : List Pod)
    (hval : validateSessionID req.spec.sessionID = none)
    (hfin : cleanupFinalizer ∈ req.finalizers)
    (hdel : req.deletionTimestamp = none)
    (hph : req.status.phase = "Completed" ∨ req.status.phase = "Failed") :
    reconcileB now req pods = handleCompletedBuildB now req pods := by
  unfold reconcileB
  rw [hval]
  rw [if_neg (fun hc => hc.2 hfin)]
  rw [if_neg (fun hc => hc hdel)]
  rw [if_neg (by rcases hph with h | h <;> rw [h] <;> decide)]
  rw [if_neg (by rcases hph with h | h <;> rw [h] <;> decide)]
  rw [if_neg (by rcases hph with h | h <;> rw [h] <;> decide)]
  rw [if_pos hph]

/-! ## Claim C1 -/

/-- Claim C1: for every record whose `spec.sessionId` is empty, longer
than 240 characters, or not matching the RFC-1123 DNS-label regex, a
single variant-B reconcile sets `status.phase` to Failed with a message
beginning "Invalid sessionID:", a completionTime if not already set, and
returns without requesting a requeue (and without touching the pods). -/
theorem reconcileB_invalid_sessionID_failed_no_requeue
    (now : Nat) (req : BuildRequest) (pods : List Pod)
    (h : req.spec.sessionID = "" ∨ 240 < req.spec.sessionID.length ∨
         sessionIDRegexMatches req.spec.sessionID = false) :
    ∃ o, reconcileB now req pods = some o ∧
      o.record.status.phase = "Failed" ∧
      (∃ m, o.record.status.message = "Invalid sessionID: " ++ m) ∧
      o.record.status.completionTime = some (req.status.completionTime.getD now) ∧
      o.result.requeue = false ∧ o.result.requeueAfter = 0 ∧
      o.pods = pods := by
  have hv : ∃ m, validateSessionID req.spec.sessionID = some m := by
    cases hm : validateSessionID req.spec.sessionID with
    | none =>
      rw [validateSessionID_eq_none_iff] at hm
      rcases h with h | h | h
      · exact absurd h hm.1
      · exact absurd h (Nat.not_lt.mpr hm.2.1)
      · rw [hm.2.2] at h; cases h
    | some m => exact ⟨m, rfl⟩
  obtain ⟨m, hm⟩ := hv
  have hr : reconcileB now req pods =
      some (plainOutcome { req with status := { req.status with
        phase := "Failed",
        message := "Invalid sessionID: " ++ m,
        completionTime := setIfUnset req.status.completionTime now } } pods) := by
    unfold reconcileB; rw [hm]
  refine ⟨_, hr, rfl, ⟨m, rfl⟩, ?_, rfl, rfl, rfl⟩
  show setIfUnset req.status.completionTime now = some (req.status.completionTime.getD now)
  cases req.status.completionTime <;> rfl

/-- Witness for C1: the empty sessionID is rejected in one reconcile. -/
theorem reconcileB_invalid_sessionID_witness :
    ∃ o, reconcileB 7 reqC1 [] = some o ∧
      o.record.status.phase = "Failed" ∧
      (∃ m, o.record.status.message = "Invalid sessionID: " ++ m) ∧
      o.record.status.completionTime = some (reqC1.status.completionTime.getD 7) ∧
      o.result.requeue = false ∧ o.result.requeueAfter = 0 ∧
      o.pods = [] :=
  reconcileB_invalid_sessionID_failed_no_requeue 7 reqC1 [] (Or.inl rfl)

/-! ## Claim C2 -/

/-- The pending handler leaves any record with an empty podIP satisfying
the podIP/phase relationship. -/
lemma handlePendingBuildB_podIPInv (now : Nat) (req : BuildRequest) (pods : List Pod)
    (hip : req.status.podIP = "") :
    PodIPInv (handlePendingBuildB now req pods).record := by
  unfold handlePendingBuildB
  split <;>
    exact ⟨fun hc => by rcases hc with hc | hc <;> exact absurd hc (of_decide_eq_false rfl),
           fun _ => hip⟩

/-- The creating handler preserves the podIP/phase relationship. -/
lemma handleCreatingBuildB_podIPInv (now : Nat) (req : BuildRequest) (pods : List Pod)
    (hph : req.status.phase = "Creating") (hip : req.status.podIP = "") :
    PodIPInv (handleCreatingBuildB now req pods).record := by
  unfold handleCreatingBuildB
  split
  · exact ⟨fun hc => by rcases hc with hc | hc <;> exact absurd hc (of_decide_eq_false rfl),
           fun _ => rfl⟩
  · rename_i p _
    by_cases hrun : p.phase = "Running" ∧ p.podIP ≠ ""
    · rw [if_pos hrun]
      exact ⟨fun _ => hrun.2,
             fun hc => by rcases hc with hc | hc | hc <;> exact absurd hc (of_decide_eq_false rfl)⟩
    · rw [if_neg hrun]
      by_cases hfail : p.phase = "Failed"
      · rw [if_pos hfail]
        exact ⟨fun hc => by rcases hc with hc | hc <;> exact absurd hc (of_decide_eq_false rfl),
               fun hc => by rcases hc with hc | hc | hc <;> exact absurd hc (of_decide_eq_false rfl)⟩
      · rw [if_neg hfail]
        exact ⟨fun hc => by rw [hph] at hc; rcases hc with hc | hc <;> exact absurd hc (of_decide_eq_false rfl),
               fun _ => hip⟩

/-- The running handler preserves the podIP/phase relationship. -/
lemma handleRunningBuildB_podIPInv (now : Nat) (req : BuildRequest) (pods : List Pod)
    (hph : req.status.phase = "Running") (hip : req.status.podIP ≠ "") :
    PodIPInv (handleRunningBuildB now req pods).record := by
  unfold handleRunningBuildB
  split
  · exact ⟨fun hc => by rcases hc with hc | hc <;> exact absurd hc (of_decide_eq_false rfl),
           fun hc => by rcases hc with hc | hc | hc <;> exact absurd hc (of_decide_eq_false rfl)⟩
  · rename_i p _
    by_cases hsucc : p.phase = "Succeeded"
    · rw [if_pos hsucc]
      exact ⟨fun _ => hip,
             fun hc => by rcases hc with hc | hc | hc <;> exact absurd hc (of_decide_eq_false rfl)⟩
    · rw [if_neg hsucc]
      by_cases hfail : p.phase = "Failed"
      · rw [if_pos hfail]
        exact ⟨fun hc => by rcases hc with hc | hc <;> exact absurd hc (of_decide_eq_false rfl),
               fun hc => by rcases hc with hc | hc | hc <;> exact absurd hc (of_decide_eq_false rfl)⟩
      · rw [if_neg hfail]
        exact ⟨fun _ => hip,
               fun hc => by rw [hph] at hc; rcases hc with hc | hc | hc <;> exact absurd hc (of_decide_eq_false rfl)⟩

/-- The terminal handler never changes the record. -/
lemma handleCompletedBuildB_record (now : Nat) (req : BuildRequest) (pods : List Pod)
    (o : ReconcileOutcome) (h : handleCompletedBuildB now req pods = some o) :
    o.record = req := by
  unfold handleCompletedBuildB at h
  split at h
  · cases h
  · injection h with h; rw [← h]; exact rfl

/-- One variant-B reconcile preserves the podIP/phase relationship. -/
lemma reconcileB_preserves_podIPInv (now : Nat) (req : BuildRequest) (pods : List Pod)
    (o : ReconcileOutcome) (hinv : PodIPInv req)
    (h : reconcileB now req pods = some o) : PodIPInv o.record := by
  unfold reconcileB at h
  cases hval : validateSessionID req.spec.sessionID with
  | some m =>
    rw [hval] at h
    injection h with h
    rw [← h]
    exact ⟨fun hc => by rcases hc with hc | hc <;> exact absurd hc (of_decide_eq_false rfl),
           fun hc => by rcases hc with hc | hc | hc <;> exact absurd hc (of_decide_eq_false rfl)⟩
  | none =>
    rw [hval] at h
    by_cases h1 : req.deletionTimestamp = none ∧ cleanupFinalizer ∉ req.finalizers
    · rw [if_pos h1] at h; injection h with h; rw [← h]; exact hinv
    · rw [if_neg h1] at h
      by_cases h2 : req.deletionTimestamp ≠ none
      · rw [if_pos h2] at h; injection h with h; rw [← h]; exact hinv
      · rw [if_neg h2] at h
        by_cases h3 : req.status.phase = "" ∨ req.status.phase = "Pending"
        · rw [if_pos h3] at h; injection h with h; rw [← h]
          exact handlePendingBuildB_podIPInv now req pods (hinv.2 (by tauto))
        · rw [if_neg h3] at h
          by_cases h4 : req.status.phase = "Creating"
          · rw [if_pos h4] at h; injection h with h; rw [← h]
            exact handleCreatingBuildB_podIPInv now req pods h4 (hinv.2 (Or.inr (Or.inr h4)))
          · rw [if_neg h4] at h
            by_cases h5 : req.status.phase = "Running"
            · rw [if_pos h5] at h; injection h with h; rw [← h]
              exact handleRunningBuildB_podIPInv now req pods h5 (hinv.1 (Or.inl h5))
            · rw [if_neg h5] at h
              by_cases h6 : req.status.phase = "Completed" ∨ req.status.phase = "Failed"
              · rw [if_pos h6] at h
                rw [handleCompletedBuildB_record now req pods o h]; exact hinv
              · rw [if_neg h6] at h; injection h with h; rw [← h]; exact hinv

/-- Claim C2 (amended): on every reachable record, a Running or Completed
phase implies a non-empty `status.podIP`, and an empty/Pending/Creating
phase implies an empty `status.podIP`.  The claimed equivalence with
`phase = Running` alone is false: transitions out of Running never clear
`podIP`, so a Failed (or Completed) record keeps its stale address — see
the counterexample. -/
theorem reachable_podIP_invariant (r : BuildRequest) (h : Reachable r) :
    ((r.status.phase = "Running" ∨ r.status.phase = "Completed") → r.status.podIP ≠ "") ∧
    ((r.status.phase = "" ∨ r.status.phase = "Pending" ∨ r.status.phase = "Creating") →
      r.status.podIP = "") := by
  induction h with
  | init name ns sid image =>
    exact ⟨fun hc => by rcases hc with hc | hc <;> exact absurd hc (of_decide_eq_false rfl),
           fun _ => rfl⟩
  | markDeleted r t hr ih => exact ih
  | step r pods now o hr heq ih => exact reconcileB_preserves_podIPInv now r pods o ih heq

/-- Counterexample for C2 as stated: a reachable record (session `abc`,
driven fresh → Creating → Running, then reconciled after its pod was
deleted) ends Failed while `status.podIP` still holds `10.0.0.42`, so
podIP non-empty does not imply phase Running. -/
theorem running_exit_keeps_podIP_cex :
    Reachable c2r4 ∧ c2r4.status.phase = "Failed" ∧ c2r4.status.podIP = "10.0.0.42" := by
  refine ⟨?_, rfl, rfl⟩
  have s1 : reconcileB 1 c2r0 c2pods = some
      { record := c2r1, pods := c2pods,
        result := { requeue := true, requeueAfter := 0 }, isErr := false } := by decide
  have s2 : reconcileB 2 c2r1 c2pods = some
      { record := c2r2, pods := c2pods,
        result := { requeue := false, requeueAfter := 0 }, isErr := false } := by decide
  have s3 : reconcileB 3 c2r2 c2pods = some
      { record := c2r3, pods := c2pods,
        result := { requeue := false, requeueAfter := 0 }, isErr := false } := by decide
  have s4 : reconcileB 4 c2r3 [] = some
      { record := c2r4, pods := [],
        result := { requeue := false, requeueAfter := 0 }, isErr := false } := by decide
  exact Reachable.step c2r3 [] 4 _
    (Reachable.step c2r2 c2pods 3 _
      (Reachable.step c2r1 c2pods 2 _
        (Reachable.step c2r0 c2pods 1 _
          (Reachable.init "build-abc" "default" "abc" "") s1) s2) s3) s4

/-- Witness for the amended C2 invariant, applied to the freshly created
record of session `abc`. -/
theorem reachable_podIP_invariant_witness :
    ((c2r0.status.phase = "Running" ∨ c2r0.status.phase = "Completed") →
      c2r0.status.podIP ≠ "") ∧
    ((c2r0.status.phase = "" ∨ c2r0.status.phase = "Pending" ∨
      c2r0.status.phase = "Creating") → c2r0.status.podIP = "") :=
  reachable_podIP_invariant c2r0 (Reachable.init "build-abc" "default" "abc" "")

/-! ## Claim C3 -/

set_option maxRecDepth 8192 in
/-- Claim C3 (code-bug evidence): a record marked for deletion (deletion
timestamp 50) that carries the `nix.io/cleanup` finalizer but has the
invalid sessionID "Bad_ID" is reconciled through the validation branch:
the owned pod `nix-builder-bad` is NOT deleted, the finalizer is NOT
removed, and no requeue is requested — so deletion of this record never
terminates, contradicting the claim (and the spec's "deleting a record
always terminates"). -/
theorem deletion_with_invalid_sessionID_stuck :
    reconcileB 100 rC3 [podC3] = some oC3 ∧
    oC3.record.finalizers = ["nix.io/cleanup"] ∧
    oC3.pods = [podC3] ∧
    findPod oC3.pods "default" "nix-builder-bad" = some podC3 ∧
    oC3.result.requeue = false ∧ oC3.result.requeueAfter = 0 := by
  exact ⟨by decide, rfl, rfl, by decide, rfl, rfl⟩

/-! ## Claim C4 -/

/-- Variant-B reconciles never overwrite a startTime that is already
set. -/
lemma reconcileB_preserves_startTime (now : Nat) (req : BuildRequest) (pods : List Pod)
    (o : ReconcileOutcome) (t : Nat) (h : reconcileB now req pods = some o)
    (hst : req.status.startTime = some t) :
    o.record.status.startTime = some t := by
  unfold reconcileB handlePendingBuildB handleCreatingBuildB handleRunningBuildB
    handleCompletedBuildB at h
  repeat' split at h
  all_goals cases h
  all_goals first
    | exact hst
    | (show setIfUnset req.status.startTime now = some t; rw [hst]; exact rfl)

/-- A variant-B reconcile of a record already in a terminal phase (with a
valid sessionID) leaves the status untouched. -/
lemma reconcileB_terminal_keeps_status (now : Nat) (req : BuildRequest) (pods : List Pod)
    (o : ReconcileOutcome) (h : reconcileB now req pods = some o)
    (hval : validateSessionID req.spec.sessionID = none)
    (hph : req.status.phase = "Completed" ∨ req.status.phase = "Failed") :
    o.record.status = req.status := by
  unfold reconcileB at h
  rw [hval] at h
  by_cases h1 : req.deletionTimestamp = none ∧ cleanupFinalizer ∉ req.finalizers
  · rw [if_pos h1] at h; injection h with h; rw [← h]
  · rw [if_neg h1] at h
    by_cases h2 : req.deletionTimestamp ≠ none
    · rw [if_pos h2] at h; injection h with h; rw [← h]
    · rw [if_neg h2] at h
      rw [if_neg (by rcases hph with hp | hp <;> rw [hp] <;> decide)] at h
      rw [if_neg (by rcases hph with hp | hp <;> rw [hp] <;> decide)] at h
      rw [if_neg (by rcases hph with hp | hp <;> rw [hp] <;> decide)] at h
      rw [if_pos hph] at h
      rw [handleCompletedBuildB_record now req pods o h]

/-- Counterexample for C4 as stated: with no external change at all (same
pod world, whose builder pod is already Running), two successive
reconciles of a fresh record advance the state machine twice — the first
leaves Creating, the second Running — so the status after two runs is not
the status after one. -/
theorem reconcile_twice_not_idempotent_cex :
    reconcileB 10 rC4 podsC4 = some oC4a ∧
    reconcileB 20 oC4a.record oC4a.pods = some oC4b ∧
    oC4b.record.status ≠ oC4a.record.status ∧
    oC4a.record.status.phase = "Creating" ∧ oC4b.record.status.phase = "Running" := by
  exact ⟨by decide, by decide, by decide, rfl, rfl⟩

/-- Claim C4 (amended): the reconciler is replay-safe rather than
run-twice idempotent: (1) a set `startTime` is never overwritten by any
reconcile; (2) once a record (with a valid sessionID) is in a terminal
phase, any further reconcile leaves its whole status — in particular
`completionTime` — unchanged, so replaying a completed transition is a
no-op.  Running Reconcile twice in succession is NOT generally equivalent
to running it once: the state machine can advance two steps (see the
counterexample). -/
theorem reconcileB_replay_and_timestamp_safety :
    (∀ (now : Nat) (req : BuildRequest) (pods : List Pod) (o : ReconcileOutcome) (t : Nat),
      reconcileB now req pods = some o → req.status.startTime = some t →
      o.record.status.startTime = some t) ∧
    (∀ (now : Nat) (req : BuildRequest) (pods : List Pod) (o : ReconcileOutcome),
      reconcileB now req pods = some o →
      validateSessionID req.spec.sessionID = none →
      (req.status.phase = "Completed" ∨ req.status.phase = "Failed") →
      o.record.status = req.status) :=
  ⟨fun now req pods o t h hst => reconcileB_preserves_startTime now req pods o t h hst,
   fun now req pods o h hval hph => reconcileB_terminal_keeps_status now req pods o h hval hph⟩

/-- Witness for the amended C4: reconciling the terminal record `rC4w`
at time 100 keeps `startTime = 3` and the entire status unchanged. -/
theorem reconcileB_replay_witness :
    oC4w.record.status.startTime = some 3 ∧ oC4w.record.status = rC4w.status :=
  ⟨reconcileB_replay_and_timestamp_safety.1 100 rC4w [] oC4w 3 (by decide) rfl,
   reconcileB_replay_and_timestamp_safety.2 100 rC4w [] oC4w (by decide) (by decide) (Or.inr rfl)⟩

/-! ## Claim C5 -/

/-- If the first ready observation in the window is at tick `k` (no
cancellation up to `k`), the polling loop returns that observation's
pod IP. -/
lemma waitSteps_success (get : Nat → PollObs) (cancel : Nat → Bool) :
    ∀ (fuel tick k : Nat), tick ≤ k → k < tick + fuel →
      (∀ j, tick ≤ j → j ≤ k → cancel j = false) →
      (∀ j, tick ≤ j → j < k → readyObs (get j) = false) →
      readyObs (get k) = true →
      waitSteps get cancel tick fuel = WaitResult.success (obsIP (get k)) := by
  intro fuel
  induction fuel with
  | zero => intro tick k h1 h2 _ _ _; omega
  | succ n ih =>
    intro tick k h1 h2 hc hr hready
    unfold waitSteps
    rw [hc tick (Nat.le_refl tick) h1, if_neg (by simp)]
    by_cases hk : tick = k
    · subst hk; rw [if_pos hready]
    · have hne : readyObs (get tick) = false :=
        hr tick (Nat.le_refl tick) (Nat.lt_of_le_of_ne h1 hk)
      rw [if_neg (by rw [hne]; simp)]
      exact ih (tick + 1) k (by omega) (by omega)
        (fun j hj1 hj2 => hc j (by omega) hj2)
        (fun j hj1 hj2 => hr j (by omega) hj2) hready

/-- If every tick in the window is non-ready and non-cancelled, the loop
times out. -/
lemma waitSteps_timeout (get : Nat → PollObs) (cancel : Nat → Bool) :
    ∀ (fuel tick : Nat),
      (∀ j, tick ≤ j → j < tick + fuel → cancel j = false ∧ readyObs (get j) = false) →
      waitSteps get cancel tick fuel = WaitResult.timeoutErr := by
  intro fuel
  induction fuel with
  | zero => intro tick _; rfl
  | succ n ih =>
    intro tick hobs
    unfold waitSteps
    have h0 := hobs tick (Nat.le_refl tick) (by omega)
    rw [h0.1, if_neg (by simp), h0.2, if_neg (by simp)]
    exact ih (tick + 1) (fun j hj1 hj2 => hobs j (by omega) (by omega))

/-- If cancellation is observed at tick `c` before any ready observation,
the loop returns the cancellation error. -/
lemma waitSteps_cancelled (get : Nat → PollObs) (cancel : Nat → Bool) :
    ∀ (fuel tick c : Nat), tick ≤ c → c < tick + fuel → cancel c = true →
      (∀ j, tick ≤ j → j < c → cancel j = false ∧ readyObs (get j) = false) →
      waitSteps get cancel tick fuel = WaitResult.cancelled := by
  intro fuel
  induction fuel with
  | zero => intro tick c h1 h2 _ _; omega
  | succ n ih =>
    intro tick c h1 h2 hcanc hobs
    unfold waitSteps
    by_cases hk : tick = c
    · subst hk; rw [hcanc, if_pos rfl]
    · have hj := hobs tick (Nat.le_refl tick) (Nat.lt_of_le_of_ne h1 hk)
      rw [hj.1, if_neg (by simp), hj.2, if_neg (by simp)]
      exact ih (tick + 1) c (by omega) (by omega) hcanc
        (fun j hj1 hj2 => hobs j (by omega) hj2)

/-- Claim C5: the proxy's await-routability wait polls once per second
(ticks 1..120, i.e. a 2-minute ceiling): it returns the observed pod IP
at the first tick whose observation has `status.phase = Running` and
`status.podIP ≠ ""` (missing records and read errors — both `PollObs.missing`
— are silently retried); if all 120 observations are non-ready it returns
the timeout error; and if cancellation is observed first it returns the
cancellation error. -/
theorem waitForBuilderPod_spec (get : Nat → PollObs) (cancel : Nat → Bool) :
    (∀ k, 1 ≤ k → k ≤ 120 →
      (∀ j, 1 ≤ j → j ≤ k → cancel j = false) →
      (∀ j, 1 ≤ j → j < k → readyObs (get j) = false) →
      readyObs (get k) = true →
      waitForBuilderPod get cancel = WaitResult.success (obsIP (get k))) ∧
    ((∀ j, 1 ≤ j → j ≤ 120 → cancel j = false ∧ readyObs (get j) = false) →
      waitForBuilderPod get cancel = WaitResult.timeoutErr) ∧
    (∀ c, 1 ≤ c → c ≤ 120 → cancel c = true →
      (∀ j, 1 ≤ j → j < c → cancel j = false ∧ readyObs (get j) = false) →
      waitForBuilderPod get cancel = WaitResult.cancelled) := by
  refine ⟨?_, ?_, ?_⟩
  · intro k h1 h2 hc hr hready
    exact waitSteps_success get cancel 120 1 k h1 (by omega) hc hr hready
  · intro hobs
    exact waitSteps_timeout get cancel 120 1 (fun j hj1 hj2 => hobs j hj1 (by omega))
  · intro c h1 h2 hcanc hobs
    exact waitSteps_cancelled get cancel 120 1 c h1 (by omega) hcanc hobs

/-- Witness for C5: a record Running at `10.0.0.5` from the first poll is
returned at once; a record that never appears times out; an
already-cancelled context yields the cancellation error. -/
theorem waitForBuilderPod_spec_witness :
    waitForBuilderPod getReadyW cancelNeverW = WaitResult.success "10.0.0.5" ∧
    waitForBuilderPod getMissingW cancelNeverW = WaitResult.timeoutErr ∧
    waitForBuilderPod getMissingW cancelNowW = WaitResult.cancelled :=
  ⟨(waitForBuilderPod_spec getReadyW cancelNeverW).1 1 (Nat.le_refl 1) (by decide)
      (fun _ _ _ => rfl) (fun j h1 h2 => absurd (Nat.lt_of_le_of_lt h1 h2) (by omega))
      (by decide),
   (waitForBuilderPod_spec getMissingW cancelNeverW).2.1 (fun _ _ _ => ⟨rfl, rfl⟩),
   (waitForBuilderPod_spec getMissingW cancelNowW).2.2 1 (Nat.le_refl 1) (by decide) rfl
      (fun j h1 h2 => absurd (Nat.lt_of_le_of_lt h1 h2) (by omega))⟩

/-! ## Claim C6 -/

/-- Counterexample for C6 as stated: in controller variant A (the
part_006 variant without sessionID validation), a Running record whose
pod is gone is moved to Failed with completionTime set but with the
message "Builder pod was deleted unexpectedly" — not the claimed
"Build failed - pod was deleted". -/
theorem variantA_pod_deleted_message_cex :
    reconcileA 50 rC6 [] = oC6 ∧
    oC6.record.status.phase = "Failed" ∧
    oC6.record.status.completionTime = some 50 ∧
    oC6.record.status.message = "Builder pod was deleted unexpectedly" ∧
    oC6.record.status.message ≠ "Build failed - pod was deleted" := by
  exact ⟨by decide, rfl, rfl, rfl, by decide⟩

/-- Claim C6 (amended): in the validating controller variant (part_006
variant B — the variant the spec describes), every Running record whose
pod is absent is moved in one reconcile to Failed with `completionTime`
set to the current time and message "Build failed - pod was deleted". In
the other variant the message reads "Builder pod was deleted
unexpectedly" instead (see the counterexample). -/
theorem reconcileB_running_pod_deleted (now : Nat) (req : BuildRequest) (pods : List Pod)
    (hval : validateSessionID req.spec.sessionID = none)
    (hfin : cleanupFinalizer ∈ req.finalizers)
    (hdel : req.deletionTimestamp = none)
    (hph : req.status.phase = "Running")
    (hpod : findPod pods req.ns req.status.podName = none) :
    reconcileB now req pods = some (plainOutcome { req with status := { req.status with
      phase := "Failed", completionTime := some now,
      message := "Build failed - pod was deleted" } } pods) := by
  rw [reconcileB_dispatch_running now req pods hval hfin hdel hph]
  unfold handleRunningBuildB
  rw [hpod]

/-- Witness for the amended C6: the Running record `rC6w` reconciled
against an empty pod world at time 60. -/
theorem reconcileB_running_pod_deleted_witness :
    reconcileB 60 rC6w [] = some (plainOutcome { rC6w with status := { rC6w.status with
      phase := "Failed", completionTime := some 60,
      message := "Build failed - pod was deleted" } } []) :=
  reconcileB_running_pod_deleted 60 rC6w [] (by decide) (by decide) rfl rfl (by decide)

/-! ## Claim C7 -/

/-- Claim C7: out-of-band request forwarding is transparent.  For every
request on the source channel (with only requests, no cancellation or
close, before it), the request sent downstream has exactly the original's
type, `wantReply` flag and payload bytes, and the reply delivered to the
originator — present exactly when `wantReply` is set — is the downstream
accept/reject result and-ed with the send-success flag (false on an IO
error of `SendRequest`). -/
theorem forwardRequests_transparent (downstream : SSHRequest → Bool × Bool) :
    ∀ (events : List ReqEvent) (i : Nat) (r : SSHRequest),
      events.get? i = some (ReqEvent.item r) →
      (∀ j, j < i → ∃ rj, events.get? j = some (ReqEvent.item rj)) →
      ∃ s, (forwardRequests downstream events).get? i = some s ∧
        s.sentType = r.reqType ∧ s.sentWantReply = r.wantReply ∧
        s.sentPayload = r.payload ∧
        s.accepted = (downstream r).1 ∧ s.sendOk = (downstream r).2 ∧
        s.reply = (if r.wantReply then some ((downstream r).1 && (downstream r).2)
                   else none) := by
  intro events
  induction events with
  | nil => intro i r h _; cases i <;> exact Option.noConfusion h
  | cons e rest ih =>
    intro i r h hprior
    cases i with
    | zero =>
      have he : e = ReqEvent.item r := Option.some.inj h
      subst he
      exact ⟨_, rfl, rfl, rfl, rfl, rfl, rfl, rfl⟩
    | succ n =>
      obtain ⟨r0, hr0⟩ := hprior 0 (Nat.succ_pos n)
      have he : e = ReqEvent.item r0 := Option.some.inj hr0
      subst he
      exact ih n r h (fun j hj => hprior (j + 1) (by omega))

/-- Witness for C7: a single accepted `exec` request with `wantReply`
set is forwarded verbatim and answered `true`. -/
theorem forwardRequests_transparent_witness :
    ∃ s, (forwardRequests dsW [ReqEvent.item reqW]).get? 0 = some s ∧
      s.sentType = reqW.reqType ∧ s.sentWantReply = reqW.wantReply ∧
      s.sentPayload = reqW.payload ∧
      s.accepted = (dsW reqW).1 ∧ s.sendOk = (dsW reqW).2 ∧
      s.reply = (if reqW.wantReply then some ((dsW reqW).1 && (dsW reqW).2)
                 else none) :=
  forwardRequests_transparent dsW [ReqEvent.item reqW] 0 reqW rfl
    (fun j hj => absurd hj (Nat.not_lt_zero j))

/-! ## Claim C8 -/

/-- The shutdown loop maps the record at index `i` through `shutdownOne`
with the update-success flag of index `j + i`. -/
lemma shutdownLoop_get? (now : Nat) (updateOk : Nat → Bool) :
    ∀ (items : List BuildRequest) (j i : Nat),
      (shutdownLoop now updateOk j items).get? i =
        (items.get? i).map (fun r => shutdownOne now r (updateOk (j + i))) := by
  intro items
  induction items with
  | nil => intro j i; rfl
  | cons r rs ih =>
    intro j i
    cases i with
    | zero => rfl
    | succ n =>
      show (shutdownLoop now updateOk (j + 1) rs).get? n =
        (rs.get? n).map (fun r => shutdownOne now r (updateOk (j + (n + 1))))
      rw [ih (j + 1) n]
      have harith : j + 1 + n = j + (n + 1) := by omega
      rw [harith]

/-- Counterexample for C8 as stated: `GracefulShutdown` marks the
Pending record `rPendW`, but the message it writes (part_006 line 678)
is "Controller shutdown during processing" with a capital C — not the
claim's "controller shutdown during processing". -/
theorem gracefulShutdown_message_case_cex :
    (gracefulShutdown 9 [rPendW] okW).1.get? 0 =
      some { rPendW with status := shutdownStatus 9 rPendW.status } ∧
    rPendW.status.phase = "Pending" ∧
    (shutdownStatus 9 rPendW.status).message = "Controller shutdown during processing" ∧
    (shutdownStatus 9 rPendW.status).message ≠ "controller shutdown during processing" := by
  exact ⟨by decide, rfl, rfl, by decide⟩

/-- Claim C8 (amended): `GracefulShutdown` returns success
unconditionally; every record whose phase is not Pending and not
Creating is left entirely unchanged; a Pending/Creating record whose
status update succeeds is marked Failed with the message
"Controller shutdown during processing" — with a capital C, not the
claimed "controller shutdown during processing" (see the
counterexample) — and a completion time; and a record whose status
update fails is also left unchanged in the store (the failure is only
logged). -/
theorem gracefulShutdown_spec (now : Nat) (items : List BuildRequest) (updateOk : Nat → Bool) :
    (gracefulShutdown now items updateOk).2 = true ∧
    ∀ (i : Nat) (r : BuildRequest), items.get? i = some r →
      (¬(r.status.phase = "Pending" ∨ r.status.phase = "Creating") →
        (gracefulShutdown now items updateOk).1.get? i = some r) ∧
      ((r.status.phase = "Pending" ∨ r.status.phase = "Creating") → updateOk i = true →
        (gracefulShutdown now items updateOk).1.get? i =
          some { r with status := shutdownStatus now r.status }) ∧
      (updateOk i = false →
        (gracefulShutdown now items updateOk).1.get? i = some r) := by
  refine ⟨rfl, ?_⟩
  intro i r hr
  have hget : (gracefulShutdown now items updateOk).1.get? i =
      some (shutdownOne now r (updateOk i)) := by
    show (shutdownLoop now updateOk 0 items).get? i = _
    rw [shutdownLoop_get? now updateOk items 0 i, hr]
    simp
  refine ⟨?_, ?_, ?_⟩
  · intro hph
    rw [hget]
    unfold shutdownOne
    rw [if_neg hph]
  · intro hph hok
    rw [hget]
    unfold shutdownOne
    rw [if_pos hph, hok, if_pos rfl]
  · intro hok
    rw [hget]
    unfold shutdownOne
    by_cases hph : r.status.phase = "Pending" ∨ r.status.phase = "Creating"
    · rw [if_pos hph, hok, if_neg (by simp)]
    · rw [if_neg hph]

/-- Witness for C8: on [Pending, Running, Creating] with the third update
failing, the Pending record is marked, the Running record is untouched,
the Creating record stays unchanged, and the call succeeds. -/
theorem gracefulShutdown_spec_witness :
    (gracefulShutdown 9 itemsW okW).2 = true ∧
    (gracefulShutdown 9 itemsW okW).1.get? 0 =
      some { rPendW with status := shutdownStatus 9 rPendW.status } ∧
    (gracefulShutdown 9 itemsW okW).1.get? 1 = some rRunW ∧
    (gracefulShutdown 9 itemsW okW).1.get? 2 = some rCreatW :=
  ⟨(gracefulShutdown_spec 9 itemsW okW).1,
   (((gracefulShutdown_spec 9 itemsW okW).2 0 rPendW rfl).2.1 (Or.inl rfl) rfl),
   (((gracefulShutdown_spec 9 itemsW okW).2 1 rRunW rfl).1 (by decide)),
   (((gracefulShutdown_spec 9 itemsW okW).2 2 rCreatW rfl).2.2 rfl)⟩

/-! ## Claim C9 -/

/-- After `deletePod`, the pod can no longer be found. -/
lemma findPod_deletePod (pods : List Pod) (ns n : String) :
    findPod (deletePod pods ns n) ns n = none := by
  unfold findPod deletePod
  rw [List.find?_eq_none]
  intro p hp hcontra
  rw [List.mem_filter] at hp
  rw [hcontra] at hp
  exact absurd hp.2 (by decide)

/-- Counterexample for C9 as stated: in controller variant A (part_006,
first variant), the terminal handler performs no garbage collection: a
Completed record 1000 s past its completion whose pod is still present is
reconciled without deleting the pod, which remains findable. -/
theorem variantA_no_terminal_gc_cex :
    reconcileA 1000 rC9 [podC9] = plainOutcome rC9 [podC9] ∧
    (plainOutcome rC9 [podC9]).pods = [podC9] ∧
    findPod (plainOutcome rC9 [podC9]).pods "default" "nix-builder-abc" = some podC9 ∧
    rC9.status.completionTime = some 0 ∧ 300 < 1000 - 0 := by
  exact ⟨by decide, rfl, by decide, rfl, by decide⟩

/-- Claim C9 (amended): only the validating variant (part_006 variant B)
implements terminal-record garbage collection: for a Completed or Failed
record whose completionTime is more than 5 minutes old and whose pod
still exists, one reconcile deletes the pod (it is no longer findable),
leaves the record itself — hence its terminal phase — untouched, and
requests no requeue.  The other part_006 variant has no such collection
(see the counterexample). -/
theorem reconcileB_terminal_gc (now t : Nat) (req : BuildRequest) (pods : List Pod) (p : Pod)
    (hval : validateSessionID req.spec.sessionID = none)
    (hfin : cleanupFinalizer ∈ req.finalizers)
    (hdel : req.deletionTimestamp = none)
    (hph : req.status.phase = "Completed" ∨ req.status.phase = "Failed")
    (hct : req.status.completionTime = some t)
    (hold : 300 < now - t)
    (hpod : findPod pods req.ns req.status.podName = some p) :
    reconcileB now req pods =
      some (plainOutcome req (deletePod pods req.ns req.status.podName)) ∧
    findPod (deletePod pods req.ns req.status.podName) req.ns req.status.podName = none ∧
    (plainOutcome req (deletePod pods req.ns req.status.podName)).record = req ∧
    (plainOutcome req (deletePod pods req.ns req.status.podName)).result.requeue = false ∧
    (plainOutcome req (deletePod pods req.ns req.status.podName)).result.requeueAfter = 0 := by
  refine ⟨?_, findPod_deletePod pods req.ns req.status.podName, rfl, rfl, rfl⟩
  rw [reconcileB_dispatch_terminal now req pods hval hfin hdel hph]
  unfold handleCompletedBuildB
  simp only [hct]
  rw [if_pos hold, hpod]

/-- Witness for the amended C9: variant B deletes the leftover pod of the
Completed record `rC9` at time 1000. -/
theorem reconcileB_terminal_gc_witness :
    reconcileB 1000 rC9 [podC9] =
      some (plainOutcome rC9 (deletePod [podC9] rC9.ns rC9.status.podName)) ∧
    findPod (deletePod [podC9] rC9.ns rC9.status.podName) rC9.ns rC9.status.podName = none ∧
    (plainOutcome rC9 (deletePod [podC9] rC9.ns rC9.status.podName)).record = rC9 ∧
    (plainOutcome rC9 (deletePod [podC9] rC9.ns rC9.status.podName)).result.requeue = false ∧
    (plainOutcome rC9 (deletePod [podC9] rC9.ns rC9.status.podName)).result.requeueAfter = 0 :=
  reconcileB_terminal_gc 1000 0 rC9 [podC9] podC9 (by decide) (by decide) rfl
    (Or.inl rfl) rfl (by decide) (by decide)

/-! ## Claim C10 -/

/-- Claim C10: the variant-B terminal handler dereferences
`status.completionTime` with no nil guard, so for a record that reaches it
(terminal phase, valid sessionID, finalizer present, not marked for
deletion) the reconcile panics — modelled as `none` — exactly when
`completionTime` is unset. -/
theorem handleCompleted_safe_iff_completionTime (now : Nat) (req : BuildRequest)
    (pods : List Pod)
    (hval : validateSessionID req.spec.sessionID = none)
    (hfin : cleanupFinalizer ∈ req.finalizers)
    (hdel : req.deletionTimestamp = none)
    (hph : req.status.phase = "Completed" ∨ req.status.phase = "Failed") :
    reconcileB now req pods = none ↔ req.status.completionTime = none := by
  rw [reconcileB_dispatch_terminal now req pods hval hfin hdel hph]
  unfold handleCompletedBuildB
  cases hct : req.status.completionTime with
  | none => simp
  | some t => simp

/-- Witness for C10: the Completed record `rC10`, whose completionTime
was never set, makes the terminal handler dereference nil (the reconcile
is `none`). -/
theorem handleCompleted_nil_deref_witness :
    reconcileB 5 rC10 [] = none :=
  (handleCompleted_safe_iff_completionTime 5 rC10 [] (by decide) (by decide) rfl
    (Or.inl rfl)).mpr rfl
